import Mathlib

/-!
Shallow embedding of the Streamlit application src/app.py (AIS clinical
prediction tool).  The application collects nine numeric form fields and
three Yes/No fields, assembles a one-row pandas DataFrame with a fixed
column order, calls predict_proba and predict on an externally loaded
model object inside a try/except, and renders the results.

The embedding represents one run of the script as a list of events: model
calls and UI outputs, in the order the script performs them.  Numbers are
rationals; the model is a black box returning Except values, where the
error case models a raised exception whose message is the carried string.
-/

namespace AISApp

/-- A pandas-style data frame: ordered columns, each a column name paired
with its list of cell values (one cell per row). -/
abbrev DataFrame := List (String × List ℚ)

/-- A call made on the loaded model object, carrying the record passed. -/
inductive MCall where
  | proba (df : DataFrame)
  | predict (df : DataFrame)
deriving DecidableEq

/-- A UI output event: st.error, st.success, st.warning, st.write,
st.markdown, st.caption, st.metric, st.progress, st.dataframe. -/
inductive Display where
  | error (s : String)
  | success (s : String)
  | warning (s : String)
  | write (s : String)
  | markdown (s : String)
  | caption (s : String)
  | metric (label : String) (value : ℚ) (delta : Option String)
  | progress (n : ℤ)
  | dataframe (df : DataFrame)
deriving DecidableEq

/-- One event of a script run: a model call or a UI output. -/
inductive Ev where
  | call (c : MCall)
  | out (d : Display)
deriving DecidableEq

/-- The externally loaded model (the deserialized tabpfn_model.pkl): a
black box exposing predict_proba and predict, either of which may raise
(the Except.error case carries the exception text). -/
structure Model where
  predict_proba : DataFrame → Except String (List (List ℚ))
  predict : DataFrame → Except String (List ℚ)

/-- Modelled from the spec: the st.number_input widget performs string to
number parsing of the field text with silent fallback on failure (the
parse result is the Option argument; on failure the widget value, whose
initial state is the default of the source line, is used), and the value
the widget hands the script always lies between min_value and max_value. -/
def number_input (min_value : ℚ) (max_value : Option ℚ) (value : ℚ)
    (txt : Option ℚ) : ℚ :=
  let v := max min_value (txt.getD value)
  match max_value with
  | none => v
  | some hi => min hi v

/-- Modelled from the spec: the st.selectbox widget with options
No and Yes returns the option the user selected (No is the first option
and the initial selection). -/
def selectbox_yes_no (yes : Bool) : String :=
  if yes then "Yes" else "No"

/-- Raw user interaction with the form: the parse result of each numeric
field text, and whether Yes was selected in each of the three boxes. -/
structure RawInput where
  ont : Option ℚ
  sbp : Option ℚ
  bmi : Option ℚ
  b_nihss : Option ℚ
  p_nihss : Option ℚ
  neu_frac : Option ℚ
  glucose : Option ℚ
  pt : Option ℚ
  tt : Option ℚ
  htn : Bool
  stroke : Bool
  smoking : Bool

/-- The values the form widgets hand the script on submission (source
lines 61 to 102; neu_frac embeds the Neutrophil Ratio field). -/
structure FormState where
  ont : ℚ
  sbp : ℚ
  bmi : ℚ
  b_nihss : ℚ
  p_nihss : ℚ
  neu_frac : ℚ
  glucose : ℚ
  pt : ℚ
  tt : ℚ
  htn : ℚ
  stroke : ℚ
  smoking : ℚ
deriving DecidableEq

/-- Source lines 89 and 90: map Yes to 1 and anything else to 0. -/
def map_binary (val : String) : ℚ :=
  if val == "Yes" then 1 else 0

/-- The widget section of the form, source lines 61 to 102, with the
min_value, max_value and default value of each st.number_input line. -/
def formState (r : RawInput) : FormState where
  ont := number_input 0 none 60 r.ont
  b_nihss := number_input 0 (some 42) 10 r.b_nihss
  glucose := number_input 0 none 5.5 r.glucose
  sbp := number_input 0 (some 300) 140 r.sbp
  p_nihss := number_input 0 (some 42) 8 r.p_nihss
  pt := number_input 0 none 12 r.pt
  bmi := number_input 0 (some 60) 24 r.bmi
  neu_frac := number_input 0 none 0.6 r.neu_frac
  tt := number_input 0 none 16 r.tt
  htn := map_binary (selectbox_yes_no r.htn)
  stroke := map_binary (selectbox_yes_no r.stroke)
  smoking := map_binary (selectbox_yes_no r.smoking)

/-- The DataFrame literal of source lines 115 to 128: the dict keeps its
insertion order. -/
def input_data_raw (f : FormState) : DataFrame :=
  [("ONT", [f.ont]), ("SBP", [f.sbp]), ("BMI", [f.bmi]),
   ("Baseline NIHSS", [f.b_nihss]), ("Post-thrombolysis NIHSS", [f.p_nihss]),
   ("Neutrophil Ratio", [f.neu_frac]), ("Glucose", [f.glucose]),
   ("PT", [f.pt]), ("TT", [f.tt]),
   ("Hypertension", [f.htn]), ("Stroke", [f.stroke]), ("Smoking", [f.smoking])]

/-- The hand-written column order of source lines 131 and 132. -/
def feature_order : List String :=
  ["ONT", "SBP", "BMI", "Baseline NIHSS", "Post-thrombolysis NIHSS",
   "Neutrophil Ratio", "Glucose", "PT", "TT", "Hypertension", "Stroke", "Smoking"]

/-- Pandas column selection df[cols]: the named columns in the given
order (every requested name is present in the frames built here). -/
def reindex (df : DataFrame) (cols : List String) : DataFrame :=
  cols.map fun c => (c, (df.lookup c).getD [])

/-- Source line 133: input_data = input_data[feature_order]. -/
def input_data (f : FormState) : DataFrame :=
  reindex (input_data_raw f) feature_order

/-- Python int() truncation toward zero, applied at source line 172. -/
def py_int (q : ℚ) : ℤ :=
  if q < 0 then -((-q).floor) else q.floor

/-- Source line 188. -/
def hint_msg : String :=
  "Please check if the input data types match the training data."

/-- Source line 159. -/
def good_banner : String :=
  "**Predicted: Good Outcome**\n\n(NIHSS 0-1)"

/-- Source line 162. -/
def poor_banner : String :=
  "**Predicted: Poor Outcome**\n\n(NIHSS > 1)"

/-- Source line 176. -/
def favorable_msg : String :=
  "✅ **Favorable Prognosis:** The model predicts a high likelihood of early neurological improvement (NIHSS 0-1 at 24h)."

/-- Source line 178. -/
def risk_msg : String :=
  "⚠️ **Risk Alert:** The model predicts a lower likelihood of early recovery. Please monitor closely."

/-- Source line 167. -/
def metric_label : String :=
  "Probability of Good Outcome (NIHSS 0-1)"

/-- Source line 152. -/
def results_header : String :=
  "### Prediction Results"

/-- Message of a Python IndexError raised by a [0] or [1] subscript on a
too-short prediction result; it reaches the user through the same except
branch as any other exception. -/
def index_error_msg : String :=
  "index out of bounds"

/-- The try/except body, source lines 142 to 188: call predict_proba,
take probs[0][1], call predict, take its [0], then render the results;
any exception along the way is caught and rendered as the error message
followed by the fixed hint. -/
def predEvents (m : Model) (df : DataFrame) : List Ev :=
  match m.predict_proba df with
  | .error e =>
      [.call (.proba df),
       .out (.error ("Prediction Error: " ++ e)), .out (.write hint_msg)]
  | .ok probs =>
      match (probs.get? 0).bind (fun row => row.get? 1) with
      | none =>
          [.call (.proba df),
           .out (.error ("Prediction Error: " ++ index_error_msg)),
           .out (.write hint_msg)]
      | some prob_good_outcome =>
          match m.predict df with
          | .error e =>
              [.call (.proba df), .call (.predict df),
               .out (.error ("Prediction Error: " ++ e)), .out (.write hint_msg)]
          | .ok preds =>
              match preds.get? 0 with
              | none =>
                  [.call (.proba df), .call (.predict df),
                   .out (.error ("Prediction Error: " ++ index_error_msg)),
                   .out (.write hint_msg)]
              | some pred_label =>
                  [.call (.proba df), .call (.predict df),
                   .out (.markdown results_header),
                   .out (if pred_label = 1 then .success good_banner
                         else .error poor_banner),
                   .out (.metric metric_label prob_good_outcome
                         (if prob_good_outcome > 0.8 then some "High confidence"
                          else none)),
                   .out (.progress (py_int (prob_good_outcome * 100))),
                   .out (if prob_good_outcome > 0.5 then .success favorable_msg
                         else .warning risk_msg)]

/-- The submission branch, source lines 108 to 188: the model-is-None
guard, the construction and preview of input_data, and the prediction. -/
def onSubmitEvents (model : Option Model) (f : FormState) : List Ev :=
  match model with
  | none => [.out (.error "Model is not loaded.")]
  | some m =>
      .out (.dataframe (input_data f)) :: predEvents m (input_data f)

/-- Projection of a run onto the calls made on the model object. -/
def callsOf (l : List Ev) : List MCall :=
  l.filterMap fun e =>
    match e with
    | .call c => some c
    | .out _ => none

/-- The record a model call received. -/
def dfOfCall : MCall → DataFrame
  | .proba df => df
  | .predict df => df

/-- Whether a call is a predict (rather than predict_proba) call. -/
def isPredictCall : MCall → Bool
  | .proba _ => false
  | .predict _ => true

/-- The environment load_model runs in: whether each candidate path
exists, and what joblib.load would produce on each (Except.error models a
raised exception, e.g. a missing torch or tabpfn dependency). -/
structure Env where
  exists_save : Bool
  exists_local : Bool
  load_save : Except String Model
  load_local : Except String Model

/-- Source line 37. -/
def not_found_msg : String :=
  "Error: \x27tabpfn_model.pkl\x27 not found in \x27save/\x27 folder or root directory."

/-- Source line 43, body of the f-string around the exception text. -/
def load_failed_msg (e : String) : String :=
  "Failed to load model. Please check dependencies (torch, tabpfn). Error: " ++ e

/-- Source lines 27 to 38: try save/tabpfn_model.pkl, then the local
tabpfn_model.pkl, else show an error and return None; a joblib.load
exception propagates (the Except.error case). -/
def load_model (env : Env) : Except String (Option Model × List Display) :=
  if env.exists_save then
    env.load_save.map fun m => (some m, [])
  else if env.exists_local then
    env.load_local.map fun m => (some m, [])
  else
    .ok (none, [.error not_found_msg])

/-- Source lines 40 to 44: the try/except around the load_model call;
an exception leaves model = None and shows the dependency hint. -/
def loadModelTop (env : Env) : Option Model × List Display :=
  match load_model env with
  | .ok r => r
  | .error e => (none, [.error (load_failed_msg e)])

/-- The static page content rendered before the form, source lines 47
to 53. -/
def preambleEvents : List Ev :=
  [.out (.markdown "AIS Clinical Prediction Model"),
   .out (.markdown "This tool uses **TabPFN** to predict the clinical outcome based on patient characteristics."),
   .out (.markdown "---"),
   .out (.markdown "Please enter the patient\x27s clinical parameters below:")]

/-- The static page content rendered after the prediction section,
source lines 191 and 192. -/
def footerEvents : List Ev :=
  [.out (.markdown "---"),
   .out (.caption "⚠️ **Disclaimer:** This model is for research and educational purposes only. It should not be used as the sole basis for clinical diagnosis or treatment decisions.")]

/-- One full sequential run of the script body: the preamble, then (only
when the form was submitted) the submission branch, then the footer. -/
def script (model : Option Model) (submitted : Bool) (f : FormState) : List Ev :=
  preambleEvents ++ (if submitted then onSubmitEvents model f else []) ++ footerEvents

/-- Whether an event is a model call. -/
def isCallEv : Ev → Bool
  | .call _ => true
  | .out _ => false

/-- Whether an event is the rendering of the results header of source
line 152. -/
def isResultsHeader : Ev → Bool
  | .out (.markdown s) => s == results_header
  | _ => false

/-- The model calls a run makes at or after the moment the results
section starts rendering. -/
def callsAfterResults (l : List Ev) : List Ev :=
  (l.dropWhile fun e => !(isResultsHeader e)).filter isCallEv

/-- The twelve one-cell columns of the record, in the hand-written
feature order, without their column names. -/
def rowValues (f : FormState) : List (List ℚ) :=
  [[f.ont], [f.sbp], [f.bmi], [f.b_nihss], [f.p_nihss], [f.neu_frac],
   [f.glucose], [f.pt], [f.tt], [f.htn], [f.stroke], [f.smoking]]

/-- Modelled from the spec: the repository holds three near-duplicate
wrappers (only app.py is present); each assembles the widget values into
a one-row table under its own column labels and unit text and then calls
predict_proba, takes entry [0][1], and calls predict on it, the same
pipeline as app.py up to label text.  This is the input-to-model-call
behavior of such a wrapper, parameterized by its column labels. -/
def wrapperCalls (cols : List String) (m : Model) (r : RawInput) : List MCall :=
  let df := cols.zip (rowValues (formState r))
  match m.predict_proba df with
  | .error _ => [.proba df]
  | .ok probs =>
      match (probs.get? 0).bind (fun row => row.get? 1) with
      | none => [.proba df]
      | some _ => [.proba df, .predict df]

/-- A label-insensitive view of a model: its predictions depend only on
the cell values of the record, not on the column names. -/
structure CoreModel where
  proba : List (List ℚ) → Except String (List (List ℚ))
  pred : List (List ℚ) → Except String (List ℚ)

/-- Forget the column names of a record, keeping the ordered values. -/
def stripCols (df : DataFrame) : List (List ℚ) :=
  df.map Prod.snd

/-- The Model induced by a label-insensitive CoreModel. -/
def liftModel (cm : CoreModel) : Model where
  predict_proba := fun df => cm.proba (stripCols df)
  predict := fun df => cm.pred (stripCols df)

/-- A model call up to column-label text: which method was called, and
the ordered cell values it received. -/
def stripCall (c : MCall) : Bool × List (List ℚ) :=
  (isPredictCall c, stripCols (dfOfCall c))

/-- A submission in which every numeric field text failed to parse and
every selectbox is left on No. -/
def raw_default : RawInput :=
  ⟨none, none, none, none, none, none, none, none, none, false, false, false⟩

/-- A well-behaved test model: predict_proba returns one row of class
probabilities and predict returns class 1. -/
def m_ok : Model where
  predict_proba := fun _ => .ok [[3/10, 7/10]]
  predict := fun _ => .ok [1]

/-- A test model whose predict_proba raises. -/
def m_raise : Model where
  predict_proba := fun _ => .error "boom"
  predict := fun _ => .ok [1]

/-- A test model whose predict raises after a successful predict_proba. -/
def m_raise2 : Model where
  predict_proba := fun _ => .ok [[3/10, 7/10]]
  predict := fun _ => .error "late boom"

/-- A test model whose predict_proba succeeds but returns an empty
result, so the probs[0][1] subscript of source line 146 raises. -/
def m_empty : Model where
  predict_proba := fun _ => .ok []
  predict := fun _ => .ok [1]

/-- A test environment in which only the save/ path exists and loads. -/
def env_save : Env :=
  ⟨true, false, .ok m_ok, .error "unused"⟩

/-- The cell of a one-row data frame in the named column (0 when the
column is absent or empty, a case never reached on the frames built
here). -/
def colCell (df : DataFrame) (c : String) : ℚ :=
  ((df.lookup c).getD []).headD 0

/-- Modelled from the spec: a stand-in set of twelve column labels for
one of the two sibling wrappers, which differ from app.py only in label
and unit text. -/
def wrapper2_cols : List String :=
  ["F1", "F2", "F3", "F4", "F5", "F6", "F7", "F8", "F9", "F10", "F11", "F12"]

/-- A label-insensitive test model matching m_ok. -/
def cm_ok : CoreModel where
  proba := fun _ => .ok [[3/10, 7/10]]
  pred := fun _ => .ok [1]

-- Helper lemmas shared by the claim theorems.

theorem input_data_eq (f : FormState) :
    input_data f =
      [("ONT", [f.ont]), ("SBP", [f.sbp]), ("BMI", [f.bmi]),
       ("Baseline NIHSS", [f.b_nihss]), ("Post-thrombolysis NIHSS", [f.p_nihss]),
       ("Neutrophil Ratio", [f.neu_frac]), ("Glucose", [f.glucose]),
       ("PT", [f.pt]), ("TT", [f.tt]),
       ("Hypertension", [f.htn]), ("Stroke", [f.stroke]), ("Smoking", [f.smoking])] := by
  rfl

theorem input_data_eq_zip (f : FormState) :
    input_data f = feature_order.zip (rowValues f) := by
  rfl

theorem predEvents_proba_error (m : Model) (df : DataFrame) (e : String)
    (h : m.predict_proba df = .error e) :
    predEvents m df =
      [.call (.proba df),
       .out (.error ("Prediction Error: " ++ e)), .out (.write hint_msg)] := by
  unfold predEvents
  rw [h]

theorem predEvents_predict_error (m : Model) (df : DataFrame)
    (probs : List (List ℚ)) (p : ℚ) (e : String)
    (h1 : m.predict_proba df = .ok probs)
    (h2 : (probs.get? 0).bind (fun row => row.get? 1) = some p)
    (h3 : m.predict df = .error e) :
    predEvents m df =
      [.call (.proba df), .call (.predict df),
       .out (.error ("Prediction Error: " ++ e)), .out (.write hint_msg)] := by
  unfold predEvents
  rw [h1]
  simp only [h2, h3]

theorem number_input_none_nomax (lo d : ℚ) (h1 : lo ≤ d) :
    number_input lo none d none = d := by
  unfold number_input
  simp [max_eq_right h1]

theorem number_input_none_max (lo d hi : ℚ) (h1 : lo ≤ d) (h2 : d ≤ hi) :
    number_input lo (some hi) d none = d := by
  unfold number_input
  simp only [Option.getD_none]
  rw [max_eq_right h1, min_eq_right h2]

theorem number_input_ge (lo : ℚ) (hi : Option ℚ) (d : ℚ) (o : Option ℚ)
    (h : ∀ x ∈ hi, lo ≤ x) : lo ≤ number_input lo hi d o := by
  unfold number_input
  cases hi with
  | none => exact le_max_left _ _
  | some x => exact le_min (h x rfl) (le_max_left _ _)

theorem number_input_le (lo hi d : ℚ) (o : Option ℚ) :
    number_input lo (some hi) d o ≤ hi := by
  unfold number_input
  exact min_le_left _ _

theorem map_binary_zero_or_one (s : String) :
    map_binary s = 0 ∨ map_binary s = 1 := by
  unfold map_binary
  split
  · right; rfl
  · left; rfl

theorem formState_all_fail (b1 b2 b3 : Bool) :
    formState ⟨none, none, none, none, none, none, none, none, none, b1, b2, b3⟩ =
      ⟨60, 140, 24, 10, 8, 0.6, 5.5, 12, 16,
       map_binary (selectbox_yes_no b1), map_binary (selectbox_yes_no b2),
       map_binary (selectbox_yes_no b3)⟩ := by
  unfold formState
  congr 1 <;> first
    | rfl
    | (rw [number_input_none_nomax]; norm_num)

theorem callsOf_onSubmit (m : Model) (f : FormState) :
    callsOf (onSubmitEvents (some m) f) = [.proba (input_data f)] ∨
    callsOf (onSubmitEvents (some m) f) =
      [.proba (input_data f), .predict (input_data f)] := by
  unfold onSubmitEvents predEvents
  rcases hp : m.predict_proba (input_data f) with e | probs
  · simp only [hp]; left; rfl
  · simp only [hp]
    rcases hx : (probs.get? 0).bind (fun row => row.get? 1) with _ | p
    · left; rfl
    · rcases hq : m.predict (input_data f) with e | preds
      · simp only [hq]; right; rfl
      · simp only [hq]
        rcases hg : preds.get? 0 with _ | lab
        · right; rfl
        · right; rfl

theorem predEvents_index_error (m : Model) (df : DataFrame)
    (probs : List (List ℚ))
    (h1 : m.predict_proba df = .ok probs)
    (h2 : (probs.get? 0).bind (fun row => row.get? 1) = none) :
    predEvents m df =
      [.call (.proba df),
       .out (.error ("Prediction Error: " ++ index_error_msg)),
       .out (.write hint_msg)] := by
  unfold predEvents
  rw [h1]
  simp only [h2]

theorem predEvents_pred_index_error (m : Model) (df : DataFrame)
    (probs : List (List ℚ)) (p : ℚ) (preds : List ℚ)
    (h1 : m.predict_proba df = .ok probs)
    (h2 : (probs.get? 0).bind (fun row => row.get? 1) = some p)
    (h3 : m.predict df = .ok preds)
    (h4 : preds.get? 0 = none) :
    predEvents m df =
      [.call (.proba df), .call (.predict df),
       .out (.error ("Prediction Error: " ++ index_error_msg)),
       .out (.write hint_msg)] := by
  unfold predEvents
  rw [h1]
  simp only [h2, h3, h4]

theorem predEvents_success (m : Model) (df : DataFrame)
    (probs : List (List ℚ)) (p : ℚ) (preds : List ℚ) (lab : ℚ)
    (h1 : m.predict_proba df = .ok probs)
    (h2 : (probs.get? 0).bind (fun row => row.get? 1) = some p)
    (h3 : m.predict df = .ok preds)
    (h4 : preds.get? 0 = some lab) :
    predEvents m df =
      [.call (.proba df), .call (.predict df),
       .out (.markdown results_header),
       .out (if lab = 1 then .success good_banner else .error poor_banner),
       .out (.metric metric_label p
             (if p > 0.8 then some "High confidence" else none)),
       .out (.progress (py_int (p * 100))),
       .out (if p > 0.5 then .success favorable_msg else .warning risk_msg)] := by
  unfold predEvents
  rw [h1]
  simp only [h2, h3, h4]

-- Claim theorems.

/-- C1: for every submitted form, the record passed to the model is a
table with exactly one row and exactly the twelve columns in the fixed
hand-written order ONT, SBP, BMI, Baseline NIHSS, Post-thrombolysis
NIHSS, Neutrophil Ratio, Glucose, PT, TT, Hypertension, Stroke, Smoking,
each column holding the corresponding form field value; every model call
of the submission receives exactly this record. -/
theorem C1_one_row_fixed_columns (m : Model) (f : FormState) :
    input_data f =
      [("ONT", [f.ont]), ("SBP", [f.sbp]), ("BMI", [f.bmi]),
       ("Baseline NIHSS", [f.b_nihss]), ("Post-thrombolysis NIHSS", [f.p_nihss]),
       ("Neutrophil Ratio", [f.neu_frac]), ("Glucose", [f.glucose]),
       ("PT", [f.pt]), ("TT", [f.tt]),
       ("Hypertension", [f.htn]), ("Stroke", [f.stroke]), ("Smoking", [f.smoking])]
    ∧ (input_data f).map Prod.fst = feature_order
    ∧ ((input_data f).all fun col => col.2.length = 1)
    ∧ ∀ c ∈ callsOf (onSubmitEvents (some m) f), dfOfCall c = input_data f := by
  refine ⟨input_data_eq f, rfl, rfl, ?_⟩
  intro c hc
  rcases callsOf_onSubmit m f with h | h <;> rw [h] at hc <;>
    simp only [List.mem_cons, List.mem_singleton, List.not_mem_nil, or_false] at hc
  · rw [hc]; rfl
  · rcases hc with hc | hc <;> rw [hc] <;> rfl

/-- C1 witness: a concrete call of a concrete submission carries the
assembled record. -/
theorem C1_one_row_fixed_columns_witness :
    MCall.proba (input_data (formState raw_default)) ∈
      callsOf (onSubmitEvents (some m_ok) (formState raw_default))
    ∧ dfOfCall (MCall.proba (input_data (formState raw_default))) =
        input_data (formState raw_default) :=
  ⟨List.mem_cons_self _ _,
   (C1_one_row_fixed_columns m_ok (formState raw_default)).2.2.2 _
     (List.mem_cons_self _ _)⟩

/-- C2: for every successful prediction, the rendered events carry, as
the displayed probability (metric value, progress bar and prognosis
branch), exactly the class-1 entry of the first row of predict_proba,
and as the displayed class exactly the first element of predict. -/
theorem C2_displayed_values (m : Model) (f : FormState)
    (probs : List (List ℚ)) (p : ℚ) (preds : List ℚ) (lab : ℚ)
    (h1 : m.predict_proba (input_data f) = .ok probs)
    (h2 : (probs.get? 0).bind (fun row => row.get? 1) = some p)
    (h3 : m.predict (input_data f) = .ok preds)
    (h4 : preds.get? 0 = some lab) :
    onSubmitEvents (some m) f =
      [.out (.dataframe (input_data f)),
       .call (.proba (input_data f)), .call (.predict (input_data f)),
       .out (.markdown results_header),
       .out (if lab = 1 then .success good_banner else .error poor_banner),
       .out (.metric metric_label p
             (if p > 0.8 then some "High confidence" else none)),
       .out (.progress (py_int (p * 100))),
       .out (if p > 0.5 then .success favorable_msg else .warning risk_msg)] := by
  show Ev.out (Display.dataframe (input_data f)) :: predEvents m (input_data f) = _
  rw [predEvents_success m (input_data f) probs p preds lab h1 h2 h3 h4]

/-- C2 witness: a concrete model returning probabilities [0.3, 0.7] and
class 1 renders exactly the corresponding results. -/
theorem C2_displayed_values_witness :
    m_ok.predict_proba (input_data (formState raw_default)) = .ok [[3/10, 7/10]]
    ∧ m_ok.predict (input_data (formState raw_default)) = .ok [1]
    ∧ onSubmitEvents (some m_ok) (formState raw_default) =
      [.out (.dataframe (input_data (formState raw_default))),
       .call (.proba (input_data (formState raw_default))),
       .call (.predict (input_data (formState raw_default))),
       .out (.markdown results_header),
       .out (if (1 : ℚ) = 1 then .success good_banner else .error poor_banner),
       .out (.metric metric_label (7/10)
             (if (7/10 : ℚ) > 0.8 then some "High confidence" else none)),
       .out (.progress (py_int ((7/10 : ℚ) * 100))),
       .out (if (7/10 : ℚ) > 0.5 then .success favorable_msg else .warning risk_msg)] :=
  ⟨rfl, rfl,
   C2_displayed_values m_ok (formState raw_default) [[3/10, 7/10]] (7/10) [1] 1
     rfl rfl rfl rfl⟩

/-- C4: the only failure handling around prediction is the bare
try/except: when predict_proba raises, or when it succeeds and predict
raises, the submission renders exactly the record preview, the error
message containing the exception text, and the fixed hint, with no
result events and no other effect. -/
theorem C4_bare_try_except (m : Model) (f : FormState) :
    (∀ e, m.predict_proba (input_data f) = .error e →
      onSubmitEvents (some m) f =
        [.out (.dataframe (input_data f)), .call (.proba (input_data f)),
         .out (.error ("Prediction Error: " ++ e)), .out (.write hint_msg)])
    ∧ (∀ probs p e, m.predict_proba (input_data f) = .ok probs →
        (probs.get? 0).bind (fun row => row.get? 1) = some p →
        m.predict (input_data f) = .error e →
        onSubmitEvents (some m) f =
          [.out (.dataframe (input_data f)), .call (.proba (input_data f)),
           .call (.predict (input_data f)),
           .out (.error ("Prediction Error: " ++ e)), .out (.write hint_msg)]) := by
  constructor
  · intro e he
    show Ev.out (Display.dataframe (input_data f)) :: predEvents m (input_data f) = _
    rw [predEvents_proba_error m _ e he]
  · intro probs p e h1 h2 h3
    show Ev.out (Display.dataframe (input_data f)) :: predEvents m (input_data f) = _
    rw [predEvents_predict_error m _ probs p e h1 h2 h3]

/-- C4 witness: a concrete raising model yields exactly the error
display and the hint. -/
theorem C4_bare_try_except_witness :
    m_raise.predict_proba (input_data (formState raw_default)) = .error "boom"
    ∧ onSubmitEvents (some m_raise) (formState raw_default) =
      [.out (.dataframe (input_data (formState raw_default))),
       .call (.proba (input_data (formState raw_default))),
       .out (.error ("Prediction Error: " ++ "boom")), .out (.write hint_msg)] :=
  ⟨rfl, (C4_bare_try_except m_raise (formState raw_default)).1 "boom" rfl⟩

/-- C5 counterexample: on a model whose predict_proba raises, and
likewise on a model whose predict_proba succeeds with a result lacking
the [0][1] entry, the submission makes exactly one model call
(predict_proba) and never calls predict, so the model is not invoked
through exactly two method calls with predict called exactly once. -/
theorem C5_counterexample :
    (callsOf (onSubmitEvents (some m_raise) (formState raw_default)) =
      [MCall.proba (input_data (formState raw_default))]
    ∧ (callsOf (onSubmitEvents (some m_raise) (formState raw_default))).length ≠ 2
    ∧ (callsOf (onSubmitEvents (some m_raise) (formState raw_default))).countP
        isPredictCall = 0)
    ∧ (m_empty.predict_proba (input_data (formState raw_default)) = .ok []
    ∧ callsOf (onSubmitEvents (some m_empty) (formState raw_default)) =
      [MCall.proba (input_data (formState raw_default))]
    ∧ (callsOf (onSubmitEvents (some m_empty) (formState raw_default))).length ≠ 2
    ∧ (callsOf (onSubmitEvents (some m_empty) (formState raw_default))).countP
        isPredictCall = 0) := by
  have h1 : (callsOf (onSubmitEvents (some m_raise) (formState raw_default))).length
      = 1 := rfl
  have h2 : (callsOf (onSubmitEvents (some m_empty) (formState raw_default))).length
      = 1 := rfl
  exact ⟨⟨rfl, by omega, rfl⟩, rfl, rfl, by omega, rfl⟩

/-- C5 amended: the model object is invoked through no methods other
than predict_proba and predict, always on the same one-row record:
predict_proba is called exactly once and first, and predict is called at
most once, exactly once whenever predict_proba returns a result with a
class-1 entry for row 0, and not at all when predict_proba raises or
when its result lacks that entry. -/
theorem C5_amended_call_discipline (m : Model) (f : FormState) :
    (callsOf (onSubmitEvents (some m) f) = [.proba (input_data f)] ∨
     callsOf (onSubmitEvents (some m) f) =
       [.proba (input_data f), .predict (input_data f)])
    ∧ (∀ probs p, m.predict_proba (input_data f) = .ok probs →
        (probs.get? 0).bind (fun row => row.get? 1) = some p →
        callsOf (onSubmitEvents (some m) f) =
          [.proba (input_data f), .predict (input_data f)])
    ∧ (∀ e, m.predict_proba (input_data f) = .error e →
        callsOf (onSubmitEvents (some m) f) = [.proba (input_data f)])
    ∧ (∀ probs, m.predict_proba (input_data f) = .ok probs →
        (probs.get? 0).bind (fun row => row.get? 1) = none →
        callsOf (onSubmitEvents (some m) f) = [.proba (input_data f)]) := by
  refine ⟨callsOf_onSubmit m f, ?_, ?_, ?_⟩
  · intro probs p h1 h2
    show callsOf (Ev.out (Display.dataframe (input_data f)) ::
      predEvents m (input_data f)) = _
    rcases hq : m.predict (input_data f) with e | preds
    · rw [predEvents_predict_error m _ probs p e h1 h2 hq]; rfl
    · rcases hg : preds.get? 0 with _ | lab
      · rw [predEvents_pred_index_error m _ probs p preds h1 h2 hq hg]; rfl
      · rw [predEvents_success m _ probs p preds lab h1 h2 hq hg]; rfl
  · intro e he
    show callsOf (Ev.out (Display.dataframe (input_data f)) ::
      predEvents m (input_data f)) = _
    rw [predEvents_proba_error m _ e he]; rfl
  · intro probs h1 h2
    show callsOf (Ev.out (Display.dataframe (input_data f)) ::
      predEvents m (input_data f)) = _
    rw [predEvents_index_error m _ probs h1 h2]; rfl

/-- C5 amended witness: on a concrete well-behaved model the submission
calls predict_proba then predict, once each, on the assembled record. -/
theorem C5_amended_call_discipline_witness :
    m_ok.predict_proba (input_data (formState raw_default)) = .ok [[3/10, 7/10]]
    ∧ callsOf (onSubmitEvents (some m_ok) (formState raw_default)) =
      [.proba (input_data (formState raw_default)),
       .predict (input_data (formState raw_default))] :=
  ⟨rfl,
   (C5_amended_call_discipline m_ok (formState raw_default)).2.1 [[3/10, 7/10]]
     (7/10) rfl rfl⟩

/-- C7: when the model is not loaded, submitting shows only the error
Model is not loaded. and makes no model call; load_model uses the save/
path when it exists, else the local path, else reports the
file-not-found error and yields no model, and a load exception yields no
model and the dependency error message. -/
theorem C7_load_model_guard (env : Env) (f : FormState) :
    (onSubmitEvents none f = [.out (.error "Model is not loaded.")]
      ∧ callsOf (onSubmitEvents none f) = [])
    ∧ (∀ m, env.exists_save = true → env.load_save = .ok m →
        loadModelTop env = (some m, []))
    ∧ (∀ m, env.exists_save = false → env.exists_local = true →
        env.load_local = .ok m → loadModelTop env = (some m, []))
    ∧ (env.exists_save = false → env.exists_local = false →
        loadModelTop env = (none, [.error not_found_msg]))
    ∧ (∀ e, env.exists_save = true → env.load_save = .error e →
        loadModelTop env = (none, [.error (load_failed_msg e)]))
    ∧ (∀ e, env.exists_save = false → env.exists_local = true →
        env.load_local = .error e →
        loadModelTop env = (none, [.error (load_failed_msg e)])) := by
  refine ⟨⟨rfl, rfl⟩, ?_, ?_, ?_, ?_, ?_⟩
  · intro m h1 h2
    unfold loadModelTop load_model
    simp [h1, h2, Except.map]
  · intro m h1 h2 h3
    unfold loadModelTop load_model
    simp [h1, h2, h3, Except.map]
  · intro h1 h2
    unfold loadModelTop load_model
    simp [h1, h2]
  · intro e h1 h2
    unfold loadModelTop load_model
    simp [h1, h2, Except.map]
  · intro e h1 h2 h3
    unfold loadModelTop load_model
    simp [h1, h2, h3, Except.map]

/-- C7 witness: in a concrete environment where only the save/ path
exists and loads, the loaded model is its payload with no error shown. -/
theorem C7_load_model_guard_witness :
    env_save.exists_save = true ∧ env_save.load_save = .ok m_ok
    ∧ loadModelTop env_save = (some m_ok, []) :=
  ⟨rfl, rfl,
   (C7_load_model_guard env_save (formState raw_default)).2.1 m_ok rfl rfl⟩

/-- C3: for every successful prediction the result banner is color-coded
by the predicted class (green Good Outcome iff the label is 1, red Poor
Outcome otherwise), the Favorable Prognosis message appears iff the
class-1 probability exceeds 0.5 (the Risk Alert warning otherwise), the
High confidence delta appears iff it exceeds 0.8, and the progress bar
value is the integer part of 100 times the class-1 probability. -/
theorem C3_output_formatting (m : Model) (f : FormState)
    (probs : List (List ℚ)) (p : ℚ) (preds : List ℚ) (lab : ℚ)
    (h1 : m.predict_proba (input_data f) = .ok probs)
    (h2 : (probs.get? 0).bind (fun row => row.get? 1) = some p)
    (h3 : m.predict (input_data f) = .ok preds)
    (h4 : preds.get? 0 = some lab) :
    (Ev.out (.success good_banner) ∈ onSubmitEvents (some m) f ↔ lab = 1)
    ∧ (Ev.out (.error poor_banner) ∈ onSubmitEvents (some m) f ↔ ¬ lab = 1)
    ∧ (Ev.out (.success favorable_msg) ∈ onSubmitEvents (some m) f ↔ p > 0.5)
    ∧ (Ev.out (.warning risk_msg) ∈ onSubmitEvents (some m) f ↔ ¬ p > 0.5)
    ∧ (Ev.out (.metric metric_label p (some "High confidence")) ∈
        onSubmitEvents (some m) f ↔ p > 0.8)
    ∧ Ev.out (.progress (py_int (p * 100))) ∈ onSubmitEvents (some m) f
    ∧ (∀ n, Ev.out (.progress n) ∈ onSubmitEvents (some m) f →
        n = py_int (p * 100)) := by
  have hev : onSubmitEvents (some m) f =
      Ev.out (Display.dataframe (input_data f)) :: predEvents m (input_data f) := rfl
  rw [hev, predEvents_success m _ probs p preds lab h1 h2 h3 h4]
  by_cases hl : lab = 1 <;> by_cases hp5 : p > 0.5 <;> by_cases hp8 : p > 0.8 <;>
    simp [hl, hp5, hp8, good_banner, poor_banner, favorable_msg, risk_msg]

/-- C3 witness: for a concrete model with class-1 probability 0.7 and
predicted label 1, the banner, prognosis, delta, and progress facts hold
at that probability. -/
theorem C3_output_formatting_witness :
    m_ok.predict_proba (input_data (formState raw_default)) = .ok [[3/10, 7/10]]
    ∧ ((Ev.out (.success good_banner) ∈
        onSubmitEvents (some m_ok) (formState raw_default) ↔ (1 : ℚ) = 1)
      ∧ (Ev.out (.error poor_banner) ∈
          onSubmitEvents (some m_ok) (formState raw_default) ↔ ¬ (1 : ℚ) = 1)
      ∧ (Ev.out (.success favorable_msg) ∈
          onSubmitEvents (some m_ok) (formState raw_default) ↔ (7/10 : ℚ) > 0.5)
      ∧ (Ev.out (.warning risk_msg) ∈
          onSubmitEvents (some m_ok) (formState raw_default) ↔ ¬ (7/10 : ℚ) > 0.5)
      ∧ (Ev.out (.metric metric_label (7/10) (some "High confidence")) ∈
          onSubmitEvents (some m_ok) (formState raw_default) ↔ (7/10 : ℚ) > 0.8)
      ∧ Ev.out (.progress (py_int ((7/10 : ℚ) * 100))) ∈
          onSubmitEvents (some m_ok) (formState raw_default)
      ∧ (∀ n, Ev.out (.progress n) ∈
          onSubmitEvents (some m_ok) (formState raw_default) →
          n = py_int ((7/10 : ℚ) * 100))) :=
  ⟨rfl,
   C3_output_formatting m_ok (formState raw_default) [[3/10, 7/10]] (7/10) [1] 1
     rfl rfl rfl rfl⟩

/-- C6: every form field is parsed with silent fallback: a numeric field
whose text fails to parse silently takes the default of its source line
(the submission proceeds, no error is raised), and a selectbox value
other than Yes silently maps to 0. -/
theorem C6_silent_fallback (b1 b2 b3 : Bool) (s : String) (hs : s ≠ "Yes") :
    formState ⟨none, none, none, none, none, none, none, none, none, b1, b2, b3⟩ =
      ⟨60, 140, 24, 10, 8, 0.6, 5.5, 12, 16,
       map_binary (selectbox_yes_no b1), map_binary (selectbox_yes_no b2),
       map_binary (selectbox_yes_no b3)⟩
    ∧ map_binary s = 0 := by
  refine ⟨formState_all_fail b1 b2 b3, ?_⟩
  unfold map_binary
  simp [hs]

/-- C6 witness: with every numeric parse failing and a non-Yes string,
the fallback values are exactly the defaults and the mapped value 0. -/
theorem C6_silent_fallback_witness :
    ("abc" : String) ≠ "Yes"
    ∧ (formState ⟨none, none, none, none, none, none, none, none, none,
        false, false, false⟩ =
      ⟨60, 140, 24, 10, 8, 0.6, 5.5, 12, 16,
       map_binary (selectbox_yes_no false), map_binary (selectbox_yes_no false),
       map_binary (selectbox_yes_no false)⟩
    ∧ map_binary "abc" = 0) :=
  ⟨by decide, C6_silent_fallback false false false "abc" (by decide)⟩

/-- C8: every record passed to the model satisfies the widget-enforced
bounds: the nine continuous cells are at least 0, the two NIHSS cells at
most 42, SBP at most 300, BMI at most 60, and each binary cell is 0 or
1, equal to 1 exactly when Yes was selected. -/
theorem C8_widget_bounds (r : RawInput) :
    (0 ≤ colCell (input_data (formState r)) "ONT")
    ∧ (0 ≤ colCell (input_data (formState r)) "SBP")
    ∧ (0 ≤ colCell (input_data (formState r)) "BMI")
    ∧ (0 ≤ colCell (input_data (formState r)) "Baseline NIHSS")
    ∧ (0 ≤ colCell (input_data (formState r)) "Post-thrombolysis NIHSS")
    ∧ (0 ≤ colCell (input_data (formState r)) "Neutrophil Ratio")
    ∧ (0 ≤ colCell (input_data (formState r)) "Glucose")
    ∧ (0 ≤ colCell (input_data (formState r)) "PT")
    ∧ (0 ≤ colCell (input_data (formState r)) "TT")
    ∧ (colCell (input_data (formState r)) "Baseline NIHSS" ≤ 42)
    ∧ (colCell (input_data (formState r)) "Post-thrombolysis NIHSS" ≤ 42)
    ∧ (colCell (input_data (formState r)) "SBP" ≤ 300)
    ∧ (colCell (input_data (formState r)) "BMI" ≤ 60)
    ∧ (colCell (input_data (formState r)) "Hypertension" = 0 ∨
       colCell (input_data (formState r)) "Hypertension" = 1)
    ∧ (colCell (input_data (formState r)) "Stroke" = 0 ∨
       colCell (input_data (formState r)) "Stroke" = 1)
    ∧ (colCell (input_data (formState r)) "Smoking" = 0 ∨
       colCell (input_data (formState r)) "Smoking" = 1)
    ∧ (colCell (input_data (formState r)) "Hypertension" = 1 ↔ r.htn = true)
    ∧ (colCell (input_data (formState r)) "Stroke" = 1 ↔ r.stroke = true)
    ∧ (colCell (input_data (formState r)) "Smoking" = 1 ↔ r.smoking = true) := by
  have hont : colCell (input_data (formState r)) "ONT" =
      number_input 0 none 60 r.ont := rfl
  have hsbp : colCell (input_data (formState r)) "SBP" =
      number_input 0 (some 300) 140 r.sbp := rfl
  have hbmi : colCell (input_data (formState r)) "BMI" =
      number_input 0 (some 60) 24 r.bmi := rfl
  have hbn : colCell (input_data (formState r)) "Baseline NIHSS" =
      number_input 0 (some 42) 10 r.b_nihss := rfl
  have hpn : colCell (input_data (formState r)) "Post-thrombolysis NIHSS" =
      number_input 0 (some 42) 8 r.p_nihss := rfl
  have hnr : colCell (input_data (formState r)) "Neutrophil Ratio" =
      number_input 0 none 0.6 r.neu_frac := rfl
  have hgl : colCell (input_data (formState r)) "Glucose" =
      number_input 0 none 5.5 r.glucose := rfl
  have hpt : colCell (input_data (formState r)) "PT" =
      number_input 0 none 12 r.pt := rfl
  have htt : colCell (input_data (formState r)) "TT" =
      number_input 0 none 16 r.tt := rfl
  have hh : colCell (input_data (formState r)) "Hypertension" =
      map_binary (selectbox_yes_no r.htn) := rfl
  have hs : colCell (input_data (formState r)) "Stroke" =
      map_binary (selectbox_yes_no r.stroke) := rfl
  have hm : colCell (input_data (formState r)) "Smoking" =
      map_binary (selectbox_yes_no r.smoking) := rfl
  rw [hont, hsbp, hbmi, hbn, hpn, hnr, hgl, hpt, htt, hh, hs, hm]
  refine ⟨?_, ?_, ?_, ?_, ?_, ?_, ?_, ?_, ?_, ?_, ?_, ?_, ?_, ?_, ?_, ?_, ?_, ?_, ?_⟩
  · exact number_input_ge _ _ _ _ (by intro x hx; simp at hx)
  · exact number_input_ge _ _ _ _ (by intro x hx; simp at hx; rw [← hx]; norm_num)
  · exact number_input_ge _ _ _ _ (by intro x hx; simp at hx; rw [← hx]; norm_num)
  · exact number_input_ge _ _ _ _ (by intro x hx; simp at hx; rw [← hx]; norm_num)
  · exact number_input_ge _ _ _ _ (by intro x hx; simp at hx; rw [← hx]; norm_num)
  · exact number_input_ge _ _ _ _ (by intro x hx; simp at hx)
  · exact number_input_ge _ _ _ _ (by intro x hx; simp at hx)
  · exact number_input_ge _ _ _ _ (by intro x hx; simp at hx)
  · exact number_input_ge _ _ _ _ (by intro x hx; simp at hx)
  · exact number_input_le _ _ _ _
  · exact number_input_le _ _ _ _
  · exact number_input_le _ _ _ _
  · exact number_input_le _ _ _ _
  · exact map_binary_zero_or_one _
  · exact map_binary_zero_or_one _
  · exact map_binary_zero_or_one _
  · cases hb : r.htn <;> simp [selectbox_yes_no, map_binary]
  · cases hb : r.stroke <;> simp [selectbox_yes_no, map_binary]
  · cases hb : r.smoking <;> simp [selectbox_yes_no, map_binary]

/-- C9: app.py is one instance of the shared wrapper pipeline (its
input-to-model-call behavior equals the generic wrapper at its column
labels), and any two instances of that pipeline with twelve column
labels and a label-insensitive model make identical model calls up to
the column-label text. -/
theorem C9_three_wrappers (cols cols2 : List String) (cm : CoreModel)
    (r : RawInput) (hl : cols.length = 12) (hl2 : cols2.length = 12) :
    (∀ (m : Model),
      wrapperCalls feature_order m r = callsOf (onSubmitEvents (some m) (formState r)))
    ∧ (wrapperCalls cols (liftModel cm) r).map stripCall =
        (wrapperCalls cols2 (liftModel cm) r).map stripCall := by
  constructor
  · intro m
    have hzip : feature_order.zip (rowValues (formState r)) =
        input_data (formState r) := (input_data_eq_zip (formState r)).symm
    have hsub : onSubmitEvents (some m) (formState r) =
        Ev.out (Display.dataframe (input_data (formState r))) ::
          predEvents m (input_data (formState r)) := rfl
    unfold wrapperCalls
    simp only [hzip]
    rw [hsub]
    rcases hp : m.predict_proba (input_data (formState r)) with e | probs
    · rw [predEvents_proba_error m _ e hp]; rfl
    · rcases hx : (probs.get? 0).bind (fun row => row.get? 1) with _ | p
      · rw [predEvents_index_error m _ probs hp hx]; simp only [hx]; rfl
      · rcases hq : m.predict (input_data (formState r)) with e | preds
        · rw [predEvents_predict_error m _ probs p e hp hx hq]; simp only [hx]; rfl
        · rcases hg : preds.get? 0 with _ | lab
          · rw [predEvents_pred_index_error m _ probs p preds hp hx hq hg]
            simp only [hx]; rfl
          · rw [predEvents_success m _ probs p preds lab hp hx hq hg]
            simp only [hx]; rfl
  · have hv : (rowValues (formState r)).length = 12 := rfl
    have h1 : stripCols (cols.zip (rowValues (formState r))) =
        rowValues (formState r) :=
      List.map_snd_zip _ _ (le_of_eq (hv.trans hl.symm))
    have h2 : stripCols (cols2.zip (rowValues (formState r))) =
        rowValues (formState r) :=
      List.map_snd_zip _ _ (le_of_eq (hv.trans hl2.symm))
    unfold wrapperCalls
    simp only [liftModel, h1, h2]
    rcases hp : cm.proba (rowValues (formState r)) with e | probs
    · simp [stripCall, dfOfCall, isPredictCall, h1, h2]
    · rcases hx : (probs.get? 0).bind (fun row => row.get? 1) with _ | p
      · simp only [hx]
        simp [stripCall, dfOfCall, isPredictCall, h1, h2]
      · simp only [hx]
        simp [stripCall, dfOfCall, isPredictCall, h1, h2]

/-- C9 witness: the app.py labels and a stand-in sibling label set, both
of length twelve, produce identical stripped call traces on a concrete
label-insensitive model. -/
theorem C9_three_wrappers_witness :
    feature_order.length = 12 ∧ wrapper2_cols.length = 12
    ∧ (wrapperCalls feature_order (liftModel cm_ok) raw_default).map stripCall =
        (wrapperCalls wrapper2_cols (liftModel cm_ok) raw_default).map stripCall :=
  ⟨rfl, rfl,
   (C9_three_wrappers feature_order wrapper2_cols cm_ok raw_default rfl rfl).2⟩

/-- C10: model calls are made synchronously inside the run of the script
between submission and the rendering of the results: no call happens
without a submission, no call happens at or after the results header is
rendered, and the calls of a run are exactly those of the submission
branch. -/
theorem C10_synchronous_calls (model : Option Model) (submitted : Bool)
    (f : FormState) :
    (submitted = false → callsOf (script model submitted f) = [])
    ∧ callsAfterResults (script model submitted f) = []
    ∧ callsOf (script model submitted f) =
        (if submitted then callsOf (onSubmitEvents model f) else []) := by
  cases submitted
  · exact ⟨fun _ => rfl, rfl, rfl⟩
  · refine ⟨fun h => Bool.noConfusion h, ?_, ?_⟩
    · cases model with
      | none => rfl
      | some m =>
        have hsub : script (some m) true f =
            preambleEvents ++ (Ev.out (Display.dataframe (input_data f)) ::
              predEvents m (input_data f)) ++ footerEvents := rfl
        rw [hsub]
        rcases hp : m.predict_proba (input_data f) with e | probs
        · rw [predEvents_proba_error m _ e hp]; rfl
        · rcases hx : (probs.get? 0).bind (fun row => row.get? 1) with _ | p
          · rw [predEvents_index_error m _ probs hp hx]; rfl
          · rcases hq : m.predict (input_data f) with e | preds
            · rw [predEvents_predict_error m _ probs p e hp hx hq]; rfl
            · rcases hg : preds.get? 0 with _ | lab
              · rw [predEvents_pred_index_error m _ probs p preds hp hx hq hg]; rfl
              · rw [predEvents_success m _ probs p preds lab hp hx hq hg]; rfl
    · cases model with
      | none => rfl
      | some m =>
        have hsub : script (some m) true f =
            preambleEvents ++ (Ev.out (Display.dataframe (input_data f)) ::
              predEvents m (input_data f)) ++ footerEvents := rfl
        have hsub2 : (if true then callsOf (onSubmitEvents (some m) f) else []) =
            callsOf (Ev.out (Display.dataframe (input_data f)) ::
              predEvents m (input_data f)) := rfl
        rw [hsub, hsub2]
        rcases hp : m.predict_proba (input_data f) with e | probs
        · rw [predEvents_proba_error m _ e hp]; rfl
        · rcases hx : (probs.get? 0).bind (fun row => row.get? 1) with _ | p
          · rw [predEvents_index_error m _ probs hp hx]; rfl
          · rcases hq : m.predict (input_data f) with e | preds
            · rw [predEvents_predict_error m _ probs p e hp hx hq]; rfl
            · rcases hg : preds.get? 0 with _ | lab
              · rw [predEvents_pred_index_error m _ probs p preds hp hx hq hg]; rfl
              · rw [predEvents_success m _ probs p preds lab hp hx hq hg]; rfl

/-- C10 witness: with no submission no model call is made. -/
theorem C10_synchronous_calls_witness :
    (false = false)
    ∧ callsOf (script (some m_ok) false (formState raw_default)) = [] :=
  ⟨rfl, (C10_synchronous_calls (some m_ok) false (formState raw_default)).1 rfl⟩

end AISApp
